import Mathlib

/-!
Verification of the MeetingSummary repository (src/meeting.py) against its
natural-language specification.

The program is a Streamlit page: it loads an API key at startup, reads an
uploaded transcript file (`read_file_content` / `read_docx`), builds a prompt
(inline in `generate_summary`), calls a generative-text service, and keeps the
current transcript and summary in per-session state (`main`).

Shallow embedding choices:
  * bytes are `List Nat` (each element a byte value);
  * Python string truthiness is the `truthy` predicate on `Option String`
    (`None` and `""` are falsy);
  * the external service call `model.generate_content(prompt)` followed by
    `response.text` is a parameter `svc : String → Except String String`;
    `.error e` stands for any exception raised by the call (transport,
    authentication, quota, service-side, blocked response), `e` being `str(e)`;
  * parsing a byte buffer with `docx.Document` is a parameter
    `parse : List Nat → Option DocxDocument`; `none` stands for the parser
    raising on an invalid container;
  * Streamlit side effects (st.error, button rendering) are recorded as
    explicit fields of a `RenderOutcome`;
  * one run of the body of `main` for one user interaction is `main_step`.
-/

namespace MeetingSummary

/-- Python whitespace as stripped by `str.strip()`: exactly the characters for
which `str.isspace()` holds, namely the six ASCII whitespace characters; the
file, group, record and unit separators U+001C-U+001F; next line U+0085;
no-break space U+00A0; ogham space mark U+1680; the en-quad..hair-space range
U+2000-U+200A; the line and paragraph separators U+2028 and U+2029; narrow
no-break space U+202F; medium mathematical space U+205F; and ideographic
space U+3000. -/
def pyIsSpace (c : Char) : Bool :=
  c = ' ' || c = '\t' || c = '\n' || c = '\r' || c = '\x0b' || c = '\x0c'
  || (0x1c ≤ c.toNat && c.toNat ≤ 0x1f) || c.toNat = 0x85 || c.toNat = 0xa0
  || c.toNat = 0x1680 || (0x2000 ≤ c.toNat && c.toNat ≤ 0x200a)
  || c.toNat = 0x2028 || c.toNat = 0x2029 || c.toNat = 0x202f
  || c.toNat = 0x205f || c.toNat = 0x3000

/-- Embedding of Python `str.strip()`: remove leading and trailing whitespace. -/
def pyStrip (s : String) : String :=
  ⟨((s.toList.dropWhile pyIsSpace).reverse.dropWhile pyIsSpace).reverse⟩

/-- Python truthiness of an `Optional[str]`: `None` and the empty string are
falsy, every other string is truthy. -/
def truthy : Option String → Bool
  | none => false
  | some s => s ≠ ""

/-- Does `needle` occur at the head of `hay`? -/
def subMatch : List Char → List Char → Bool
  | [], _ => true
  | _ :: _, [] => false
  | a :: as, b :: bs => a == b && subMatch as bs

/-- Does `needle` occur anywhere in `hay`? -/
def hasSub (needle : List Char) : List Char → Bool
  | [] => needle.isEmpty
  | c :: t => subMatch needle (c :: t) || hasSub needle t

/-- String-level substring test. -/
def strHasSub (hay needle : String) : Bool :=
  hasSub needle.toList hay.toList

/-- Strict UTF-8 decoding of a byte sequence to a list of code points,
embedding Python `bytes.decode('utf-8')`: rejects continuation bytes in lead
position, overlong encodings, surrogate code points, values above U+10FFFF and
truncated sequences; `none` stands for `UnicodeDecodeError`. -/
def utf8DecodeList : List Nat → Option (List Nat)
  | [] => some []
  | b :: bs =>
    if b < 0x80 then
      (utf8DecodeList bs).map (fun cps => b :: cps)
    else if b < 0xC2 then
      none
    else if b < 0xE0 then
      match bs with
      | b1 :: bs1 =>
        if 0x80 ≤ b1 && b1 < 0xC0 then
          (utf8DecodeList bs1).map (fun cps => ((b - 0xC0) * 64 + (b1 - 0x80)) :: cps)
        else none
      | [] => none
    else if b < 0xF0 then
      match bs with
      | b1 :: b2 :: bs2 =>
        let cp := (b - 0xE0) * 4096 + (b1 - 0x80) * 64 + (b2 - 0x80)
        if (0x80 ≤ b1 && b1 < 0xC0) && (0x80 ≤ b2 && b2 < 0xC0)
            && 0x800 ≤ cp && !(0xD800 ≤ cp && cp < 0xE000) then
          (utf8DecodeList bs2).map (fun cps => cp :: cps)
        else none
      | _ => none
    else if b < 0xF5 then
      match bs with
      | b1 :: b2 :: b3 :: bs3 =>
        let cp := (b - 0xF0) * 262144 + (b1 - 0x80) * 4096 + (b2 - 0x80) * 64 + (b3 - 0x80)
        if (0x80 ≤ b1 && b1 < 0xC0) && (0x80 ≤ b2 && b2 < 0xC0)
            && (0x80 ≤ b3 && b3 < 0xC0) && 0x10000 ≤ cp && cp ≤ 0x10FFFF then
          (utf8DecodeList bs3).map (fun cps => cp :: cps)
        else none
      | _ => none
    else none

/-- Strict UTF-8 decoding of a byte sequence to a string. -/
def utf8Decode (bs : List Nat) : Option String :=
  (utf8DecodeList bs).map (fun cps => ⟨cps.map Char.ofNat⟩)

/-- A paragraph of a word-processor document (what the `docx` library calls a
paragraph object; only its `text` is used by the program). -/
structure Paragraph where
  text : String
deriving DecidableEq, Repr

/-- A parsed word-processor document: its paragraphs in document order. -/
structure DocxDocument where
  paragraphs : List Paragraph
deriving DecidableEq, Repr

/-- Embedding of `read_docx` (src/meeting.py lines 20-26): collect every
paragraph's text into `full_text` in order, then join with newlines. -/
def read_docx (doc : DocxDocument) : String :=
  let full_text := doc.paragraphs.foldl (fun acc p => acc ++ [p.text]) []
  String.intercalate "\n" full_text

/-- An uploaded file: its filename and raw byte content (Streamlit's
`uploaded_file.name` and `uploaded_file.getvalue()`). -/
structure UploadedFile where
  name : String
  content : List Nat
deriving DecidableEq, Repr

/-- Split a character list at every `'.'`, embedding Python `str.split('.')`:
every occurrence of the separator produces a boundary, and empty pieces are
kept. `acc` holds the reversed characters of the current piece. -/
def splitDotAux : List Char → List Char → List String
  | [], acc => [⟨acc.reverse⟩]
  | c :: t, acc =>
    if c = '.' then ⟨acc.reverse⟩ :: splitDotAux t [] else splitDotAux t (c :: acc)

/-- Embedding of Python `name.split('.')`. -/
def splitDot (name : String) : List String :=
  splitDotAux name.toList []

/-- Embedding of Python `str.lower()` in the ASCII range (the only characters
relevant to the extension comparison against `txt`, `docx`, `doc`). -/
def pyToLower (s : String) : String :=
  ⟨s.toList.map Char.toLower⟩

/-- Python `name.split('.')[-1].lower()`: the lowercased final dot-separated
component of the filename (the whole name when it has no dot). -/
def lastExt (name : String) : String :=
  pyToLower ((splitDot name).getLastD "")

/-- Result of `read_file_content`: the returned value (`none` embeds Python
`None`) together with whether `st.error` was called inside the function. -/
structure ReadResult where
  content : Option String
  errorShown : Bool
deriving DecidableEq, Repr

/-- Embedding of `read_file_content` (src/meeting.py lines 28-43): branch on
the lowercased extension; `txt` decodes the bytes as UTF-8, `docx`/`doc` parses
the byte buffer and runs `read_docx`; a raised exception is caught, shown via
`st.error`, and `None` is returned; any other extension falls through and the
initial `content = ""` is returned. -/
def read_file_content (parse : List Nat → Option DocxDocument)
    (uploaded_file : UploadedFile) : ReadResult :=
  let file_type := lastExt uploaded_file.name
  if file_type = "txt" then
    match utf8Decode uploaded_file.content with
    | some s => ⟨some s, false⟩
    | none => ⟨none, true⟩
  else if file_type = "docx" || file_type = "doc" then
    match parse uploaded_file.content with
    | some doc => ⟨some (read_docx doc), false⟩
    | none => ⟨none, true⟩
  else
    ⟨some "", false⟩

/-- The fixed default prompt template up to the interpolated transcript
(src/meeting.py lines 52-59, exact bytes of the f-string). -/
def defaultHeader : String :=
  "\n            Please analyze this meeting transcript and provide a comprehensive summary with the following structure:\n            1. Key Discussion Points\n            2. Action Items\n            3. Decisions Made\n            4. Next Steps\n            \n            Here's the transcript:\n            "

/-- The tail of the fixed default prompt template after the interpolated
transcript (src/meeting.py lines 60-61). -/
def defaultFooter : String :=
  "\n            "

/-- The Prompt Builder (src/meeting.py lines 49-61, the prompt construction
inside `generate_summary`): the custom prompt followed by the transcript when
the custom prompt is non-empty after stripping, otherwise the fixed template
around the transcript. -/
def buildPrompt (text custom_prompt : String) : String :=
  if pyStrip custom_prompt ≠ "" then
    custom_prompt ++ "\n\nHere's the transcript:\n" ++ text
  else
    defaultHeader ++ text ++ defaultFooter

/-- Embedding of `generate_summary` (src/meeting.py lines 45-66): build the
prompt, call the service; any exception from the call is caught and rendered
as an error string. Totality of this function embeds the fact that the Python
function never raises past its `try`/`except`. -/
def generate_summary (svc : String → Except String String)
    (text : String) (custom_prompt : String := "") : String :=
  match svc (buildPrompt text custom_prompt) with
  | .ok t => t
  | .error e => "Error generating summary: " ++ e

/-- Result of the startup credential check (src/meeting.py lines 12-18):
`halted msg` embeds `st.error(msg)` followed by `st.stop()`, which ends the
script before `genai.configure` / `GenerativeModel` run; `running key` embeds
reaching line 17-18 with the service client configured with `key`. The
`running` constructor is the only one in which the generative-text service is
configured or contacted. -/
inductive StartupResult where
  | halted (msg : String)
  | running (apiKey : String)
deriving DecidableEq, Repr

/-- Embedding of the startup sequence (src/meeting.py lines 12-18):
`os.getenv('GEMINI_API_KEY')` yields `env`; `if not api_key` halts on `None`
or the empty string; otherwise the service is configured with the key. -/
def startup (env : Option String) : StartupResult :=
  match env with
  | none => .halted "Please set GEMINI_API_KEY in your .env file"
  | some key =>
    if key = "" then .halted "Please set GEMINI_API_KEY in your .env file"
    else .running key

/-- The per-session state of the Session Controller (src/meeting.py lines
72-75): `st.session_state.current_summary` and `st.session_state.original_text`,
both initialized to `None`. -/
structure SessionState where
  current_summary : Option String
  original_text : Option String
deriving DecidableEq, Repr

/-- The fresh session state (both fields `None`). -/
def initialState : SessionState := ⟨none, none⟩

/-- The Generate column (src/meeting.py lines 136-140): if the Generate button
was clicked, overwrite `current_summary` with a freshly generated summary. -/
def applyGenerate (svc : String → Except String String) (st : SessionState)
    (text custom_prompt : String) (genClicked : Bool) : SessionState :=
  if genClicked then
    { st with current_summary := some (generate_summary svc text custom_prompt) }
  else st

/-- The Regenerate column (src/meeting.py lines 142-146): the button is
rendered only when `st.session_state.current_summary` is truthy (Python
short-circuit `and`); if rendered and clicked, overwrite `current_summary`
with a freshly generated summary. -/
def applyRegenerate (svc : String → Except String String) (st : SessionState)
    (text custom_prompt : String) (regenClicked : Bool) : SessionState :=
  if truthy st.current_summary && regenClicked then
    { st with current_summary := some (generate_summary svc text custom_prompt) }
  else st

/-- Observable outcome of one run of the body of `main` for one interaction:
the updated session state plus which widgets/messages were produced. -/
structure RenderOutcome where
  state : SessionState
  readErrorShown : Bool
  failedReadErrorShown : Bool
  generateOffered : Bool
  regenerateOffered : Bool
  summaryDisplayed : Bool
  downloadOffered : Bool
deriving DecidableEq, Repr

/-- Embedding of one execution of the upload-handling body of `main`
(src/meeting.py lines 114-161) for a single user interaction. `uploaded` is
the file in the uploader (`None` when absent), `custom_prompt` the text-area
content, `genClicked`/`regenClicked` whether the respective button returned
`True` this run. When a file is present its content is read; on a truthy
result the transcript is stored, the Generate button offered, the two button
branches run in order, and the summary (when truthy) displayed with a download
button; on a falsy result (`None` or `""`) the state is untouched and the
failure message is shown. -/
def main_step (parse : List Nat → Option DocxDocument)
    (svc : String → Except String String) (st : SessionState)
    (uploaded : Option UploadedFile) (custom_prompt : String)
    (genClicked regenClicked : Bool) : RenderOutcome :=
  match uploaded with
  | none => ⟨st, false, false, false, false, false, false⟩
  | some f =>
    let r := read_file_content parse f
    if truthy r.content then
      let text := r.content.getD ""
      let st1 : SessionState := { st with original_text := r.content }
      let st2 := applyGenerate svc st1 text custom_prompt genClicked
      let regenOffered := truthy st2.current_summary
      let st3 := applyRegenerate svc st2 text custom_prompt regenClicked
      let displayed := truthy st3.current_summary
      ⟨st3, r.errorShown, false, true, regenOffered, displayed, displayed⟩
    else
      ⟨st, r.errorShown, true, false, false, false, false⟩

/-! Concrete instantiations used by witness theorems. -/

/-- A document parser that rejects every byte buffer. -/
def parse0 : List Nat → Option DocxDocument := fun _ => none

/-- A service that answers every prompt with the text `"S"`. -/
def svc0 : String → Except String String := fun _ => Except.ok "S"

/-- A session state holding a previously generated summary. -/
def st0 : SessionState := ⟨some "old", none⟩

/-! Helper lemmas shared by the claim theorems. -/

/-- Accumulating paragraph texts with `foldl` and list append equals mapping
`Paragraph.text` over the paragraphs. -/
theorem foldl_texts_eq_map (l : List Paragraph) :
    ∀ acc : List String,
      l.foldl (fun acc p => acc ++ [p.text]) acc = acc ++ l.map Paragraph.text := by
  induction l with
  | nil => intro acc; simp
  | cons p t ih => intro acc; simp [List.foldl, ih]

/-- A list matches at the head of itself followed by anything. -/
theorem subMatch_self_append (n b : List Char) : subMatch n (n ++ b) = true := by
  induction n with
  | nil => simp [subMatch]
  | cons c t ih => simp [subMatch, ih]

/-- A match at the head gives an occurrence. -/
theorem hasSub_of_subMatch (n l : List Char) (h : subMatch n l = true) :
    hasSub n l = true := by
  cases l with
  | nil =>
    cases n with
    | nil => rfl
    | cons c t => simp [subMatch] at h
  | cons c t => simp [hasSub, h]

/-- A list occurs as a sublist of any surrounding concatenation. -/
theorem hasSub_append (a n b : List Char) : hasSub n (a ++ n ++ b) = true := by
  induction a with
  | nil => exact hasSub_of_subMatch n (n ++ b) (subMatch_self_append n b)
  | cons c t ih =>
    have hstep : hasSub n ((c :: t) ++ n ++ b)
        = (subMatch n ((c :: t) ++ n ++ b) || hasSub n (t ++ n ++ b)) := rfl
    rw [hstep, ih, Bool.or_true]

/-- String-level corollary: the middle part of a three-way concatenation is a
substring of the whole. -/
theorem strHasSub_middle (a n b : String) : strHasSub (a ++ n ++ b) n = true := by
  have h : (a ++ n ++ b).toList = a.toList ++ n.toList ++ b.toList := rfl
  unfold strHasSub
  rw [h]
  exact hasSub_append a.toList n.toList b.toList

/-! Claim theorems. -/

/-- C1: for every service behavior, transcript and custom prompt,
`generate_summary` is total (never raises past the component) and returns the
service's text on success, and on any error the string
`"Error generating summary: "` followed by the underlying error text. -/
theorem generate_summary_fail_soft
    (svc : String → Except String String) (text custom_prompt : String) :
    (∃ t, svc (buildPrompt text custom_prompt) = Except.ok t ∧
        generate_summary svc text custom_prompt = t) ∨
    (∃ e, svc (buildPrompt text custom_prompt) = Except.error e ∧
        generate_summary svc text custom_prompt = "Error generating summary: " ++ e) := by
  cases h : svc (buildPrompt text custom_prompt) with
  | ok t => exact Or.inl ⟨t, rfl, by simp [generate_summary, h]⟩
  | error e => exact Or.inr ⟨e, rfl, by simp [generate_summary, h]⟩

/-- C2: for every transcript and every custom instruction that is non-empty
after stripping whitespace, the composed prompt is exactly the custom
instruction, a blank line, the fixed lead-in line, and the transcript. -/
theorem buildPrompt_custom_exact (text custom_prompt : String)
    (h : pyStrip custom_prompt ≠ "") :
    buildPrompt text custom_prompt =
      custom_prompt ++ "\n\nHere's the transcript:\n" ++ text := by
  simp [buildPrompt, h]

/-- Witness for C2 at the concrete custom instruction `"X"`. -/
theorem buildPrompt_custom_exact_witness :
    buildPrompt "hello" "X" = "X" ++ "\n\nHere's the transcript:\n" ++ "hello" :=
  buildPrompt_custom_exact "hello" "X" (by decide)

set_option maxRecDepth 100000 in
/-- C3: for every transcript and every custom instruction that is empty or
whitespace-only, the composed prompt is the fixed template around the
transcript; the template names the four headings, and the transcript occurs
verbatim as a substring after the template. -/
theorem buildPrompt_default_template (text custom_prompt : String)
    (h : pyStrip custom_prompt = "") :
    buildPrompt text custom_prompt = defaultHeader ++ text ++ defaultFooter ∧
    strHasSub defaultHeader "Key Discussion Points" = true ∧
    strHasSub defaultHeader "Action Items" = true ∧
    strHasSub defaultHeader "Decisions Made" = true ∧
    strHasSub defaultHeader "Next Steps" = true ∧
    strHasSub (buildPrompt text custom_prompt) text = true := by
  have hb : buildPrompt text custom_prompt = defaultHeader ++ text ++ defaultFooter := by
    simp [buildPrompt, h]
  refine ⟨hb, by decide, by decide, by decide, by decide, ?_⟩
  rw [hb]
  exact strHasSub_middle defaultHeader text defaultFooter

set_option maxRecDepth 100000 in
/-- Witness for C3 at the spec scenario: transcript `"Alice proposed X."`,
empty custom prompt. -/
theorem buildPrompt_default_template_witness :
    buildPrompt "Alice proposed X." "" = defaultHeader ++ "Alice proposed X." ++ defaultFooter ∧
    strHasSub defaultHeader "Key Discussion Points" = true ∧
    strHasSub defaultHeader "Action Items" = true ∧
    strHasSub defaultHeader "Decisions Made" = true ∧
    strHasSub defaultHeader "Next Steps" = true ∧
    strHasSub (buildPrompt "Alice proposed X." "") "Alice proposed X." = true :=
  buildPrompt_default_template "Alice proposed X." "" (by decide)

/-- C4: for every uploaded file with extension `txt` whose bytes are valid
UTF-8, `read_file_content` returns exactly their UTF-8 decoding, with no error
shown, whatever the docx parser does. -/
theorem read_file_content_txt_utf8
    (parse : List Nat → Option DocxDocument) (f : UploadedFile) (s : String)
    (hext : lastExt f.name = "txt") (hdec : utf8Decode f.content = some s) :
    read_file_content parse f = ⟨some s, false⟩ := by
  simp [read_file_content, hext, hdec]

/-- Witness for C4: the file `notes.txt` with bytes `[72, 105]` decodes to
`"Hi"`. -/
theorem read_file_content_txt_utf8_witness :
    read_file_content parse0 ⟨"notes.txt", [72, 105]⟩ = ⟨some "Hi", false⟩ :=
  read_file_content_txt_utf8 parse0 ⟨"notes.txt", [72, 105]⟩ "Hi" (by decide) (by decide)

/-- C5: for every parsed word-processor document, `read_docx` returns the
paragraph texts joined by single newline separators, in document order. -/
theorem read_docx_join_paragraphs (doc : DocxDocument) :
    read_docx doc = String.intercalate "\n" (doc.paragraphs.map Paragraph.text) := by
  simp [read_docx, foldl_texts_eq_map]

/-- C6: whenever the upload was read to a truthy transcript and the user took
a Generate action, or a Regenerate action with a truthy stored summary, the
stored summary after the interaction is exactly the freshly generated result —
the old value is replaced wholesale, never appended to or merged with. -/
theorem action_replaces_summary
    (parse : List Nat → Option DocxDocument) (svc : String → Except String String)
    (st : SessionState) (f : UploadedFile) (custom_prompt : String)
    (genClicked regenClicked : Bool)
    (hread : truthy (read_file_content parse f).content = true)
    (haction : genClicked = true ∨
        (regenClicked = true ∧ truthy st.current_summary = true)) :
    (main_step parse svc st (some f) custom_prompt genClicked regenClicked).state.current_summary
      = some (generate_summary svc ((read_file_content parse f).content.getD "") custom_prompt) := by
  rcases haction with hg | ⟨hr, hs⟩
  · subst hg
    simp [main_step, hread, applyGenerate, applyRegenerate]
  · subst hr
    cases genClicked with
    | true => simp [main_step, hread, applyGenerate, applyRegenerate]
    | false => simp [main_step, hread, applyGenerate, applyRegenerate, hs]

/-- Witness for C6: a Generate click on a freshly read transcript overwrites
the stale summary `"old"` with the new result. -/
theorem action_replaces_summary_witness :
    (main_step parse0 svc0 st0 (some ⟨"a.txt", [72]⟩) "" true false).state.current_summary
      = some (generate_summary svc0
          ((read_file_content parse0 ⟨"a.txt", [72]⟩).content.getD "") "") :=
  action_replaces_summary parse0 svc0 st0 ⟨"a.txt", [72]⟩ "" true false
    (by decide) (Or.inl rfl)

/-- C7: for every upload whose content is invalid for its declared format
(non-UTF-8 bytes under `txt`, or a buffer the word-processor parser rejects
under `docx`/`doc`), `read_file_content` does not raise: it returns `None`
after surfacing an error message, and the interaction stores no transcript,
shows the failure message and offers no Generate action. -/
theorem invalid_content_halts
    (parse : List Nat → Option DocxDocument) (svc : String → Except String String)
    (st : SessionState) (f : UploadedFile) (custom_prompt : String)
    (genClicked regenClicked : Bool)
    (hbad : (lastExt f.name = "txt" ∧ utf8Decode f.content = none) ∨
        ((lastExt f.name = "docx" ∨ lastExt f.name = "doc") ∧ parse f.content = none)) :
    read_file_content parse f = ⟨none, true⟩ ∧
    (main_step parse svc st (some f) custom_prompt genClicked regenClicked).state = st ∧
    (main_step parse svc st (some f) custom_prompt genClicked regenClicked).failedReadErrorShown = true ∧
    (main_step parse svc st (some f) custom_prompt genClicked regenClicked).generateOffered = false := by
  have hr : read_file_content parse f = ⟨none, true⟩ := by
    rcases hbad with ⟨he, hd⟩ | ⟨he, hp⟩
    · simp [read_file_content, he, hd]
    · rcases he with he | he <;> simp [read_file_content, he, hp]
  refine ⟨hr, ?_, ?_, ?_⟩ <;> simp [main_step, hr, truthy]

/-- Witness for C7: the file `bad.txt` with the lone invalid byte `255`. -/
theorem invalid_content_halts_witness :
    read_file_content parse0 ⟨"bad.txt", [255]⟩ = ⟨none, true⟩ ∧
    (main_step parse0 svc0 st0 (some ⟨"bad.txt", [255]⟩) "" true true).state = st0 ∧
    (main_step parse0 svc0 st0 (some ⟨"bad.txt", [255]⟩) "" true true).failedReadErrorShown = true ∧
    (main_step parse0 svc0 st0 (some ⟨"bad.txt", [255]⟩) "" true true).generateOffered = false :=
  invalid_content_halts parse0 svc0 st0 ⟨"bad.txt", [255]⟩ "" true true
    (Or.inl ⟨by decide, by decide⟩)

/-- C8: when the API-key credential is absent from the environment, startup
halts with the user-visible configuration error, and the run never reaches the
`running` state — the only state in which the generative-text service is
configured or called. -/
theorem missing_api_key_halts :
    startup none = StartupResult.halted "Please set GEMINI_API_KEY in your .env file" ∧
    ∀ key, startup none ≠ StartupResult.running key :=
  ⟨rfl, fun _ h => StartupResult.noConfusion h⟩

/-- C9: in any interaction without a Generate click, Regenerate is offered
only when the stored session state already holds a truthy summary; and in any
interaction in which Regenerate is not offered, clicking it changes nothing —
a Regenerate step never occurs from a state with no stored summary. -/
theorem regenerate_only_with_summary
    (parse : List Nat → Option DocxDocument) (svc : String → Except String String)
    (st : SessionState) (uploaded : Option UploadedFile) (custom_prompt : String)
    (regenClicked : Bool) :
    ((main_step parse svc st uploaded custom_prompt false regenClicked).regenerateOffered = true →
      truthy st.current_summary = true) ∧
    (∀ genClicked : Bool,
      (main_step parse svc st uploaded custom_prompt genClicked regenClicked).regenerateOffered = false →
      (main_step parse svc st uploaded custom_prompt genClicked true).state
        = (main_step parse svc st uploaded custom_prompt genClicked false).state) := by
  constructor
  · intro h
    cases uploaded with
    | none => simp [main_step] at h
    | some f =>
      cases hc : truthy (read_file_content parse f).content with
      | false => simp [main_step, hc] at h
      | true =>
        simp [main_step, hc, applyGenerate] at h
        exact h
  · intro genClicked h
    cases uploaded with
    | none => simp [main_step]
    | some f =>
      cases hc : truthy (read_file_content parse f).content with
      | false => simp [main_step, hc]
      | true =>
        simp [main_step, hc] at h ⊢
        simp [applyRegenerate, h]

/-- Witness for C9: with a stored summary `"old"` the offer implies the
summary's presence, and with an empty state Regenerate is not offered and a
click has no effect. -/
theorem regenerate_only_with_summary_witness :
    truthy st0.current_summary = true ∧
    (main_step parse0 svc0 initialState (some ⟨"a.txt", [72]⟩) "" false true).state
      = (main_step parse0 svc0 initialState (some ⟨"a.txt", [72]⟩) "" false false).state :=
  ⟨(regenerate_only_with_summary parse0 svc0 st0 (some ⟨"a.txt", [72]⟩) "" true).1
      (by decide),
   (regenerate_only_with_summary parse0 svc0 initialState (some ⟨"a.txt", [72]⟩) "" true).2
      false (by decide)⟩

/-- C10: an upload whose extracted text is the empty string — in particular
any filename whose lowercased final extension is none of `txt`, `docx`, `doc`,
for which `read_file_content` falls through every branch and returns `""` — is
treated by the session controller exactly like a read failure: no transcript
is stored, the failure message is shown, and no Generate button is offered. -/
theorem empty_text_like_failure
    (parse : List Nat → Option DocxDocument) (svc : String → Except String String)
    (st : SessionState) (f : UploadedFile) (custom_prompt : String)
    (genClicked regenClicked : Bool) :
    (lastExt f.name ≠ "txt" → lastExt f.name ≠ "docx" → lastExt f.name ≠ "doc" →
        read_file_content parse f = ⟨some "", false⟩) ∧
    ((read_file_content parse f).content = some "" →
        (main_step parse svc st (some f) custom_prompt genClicked regenClicked).state = st ∧
        (main_step parse svc st (some f) custom_prompt genClicked regenClicked).failedReadErrorShown = true ∧
        (main_step parse svc st (some f) custom_prompt genClicked regenClicked).generateOffered = false) := by
  constructor
  · intro h1 h2 h3
    simp [read_file_content, h1, h2, h3]
  · intro h
    have hc : truthy (read_file_content parse f).content = false := by
      rw [h]; rfl
    refine ⟨?_, ?_, ?_⟩ <;> simp [main_step, hc]

/-- Witness for C10: the file `notes.pdf` (unsupported extension, empty
content) yields `""` and the interaction behaves like a failed read. -/
theorem empty_text_like_failure_witness :
    read_file_content parse0 ⟨"notes.pdf", []⟩ = ⟨some "", false⟩ ∧
    (main_step parse0 svc0 st0 (some ⟨"notes.pdf", []⟩) "" true true).state = st0 ∧
    (main_step parse0 svc0 st0 (some ⟨"notes.pdf", []⟩) "" true true).failedReadErrorShown = true ∧
    (main_step parse0 svc0 st0 (some ⟨"notes.pdf", []⟩) "" true true).generateOffered = false :=
  ⟨(empty_text_like_failure parse0 svc0 st0 ⟨"notes.pdf", []⟩ "" true true).1
      (by decide) (by decide) (by decide),
   (empty_text_like_failure parse0 svc0 st0 ⟨"notes.pdf", []⟩ "" true true).2
      (by decide)⟩

end MeetingSummary
